import Mathlib

/-!
Shallow embedding of the audiometer signal-graph controller
(`src/hooks/useAudiometer.ts`) and of the threshold-saving handler of the
audiometer page (`handleSaveResult`), together with theorems settling the
specification claims about them.

Conventions of the embedding:
* React `useState`/`useRef` cells become fields of `EngineState`; a call to a
  setter is modelled as an immediate field update (state passing).
* Web Audio nodes are modelled by the data the source writes into them.  A
  tone node-graph (oscillator → gain → panner → destination, source lines
  350-377) is a `ToneChain`; the list `aliveChains` records every chain that
  is currently connected through to the output sink and audible, so the
  single-alive-graph claims can be stated as a bound on its length.
* Asynchronous external effects (network fetch + decode, `getUserMedia`) are
  passed in as boolean oracle parameters (`fetchOk`, `streamOk`).
* Numeric parameters carried in state are `ℚ` so state transitions stay
  executable; the real-valued gain formula `dbToGain` lives in `ℝ`.
-/

/-- Laterality of a stimulus, `'left' | 'right' | 'binaural'` in the source. -/
inductive Laterality
  | left
  | right
  | binaural
deriving DecidableEq, Repr

/-- Stimulus type, `'pure' | 'warble' | 'pulsed'` in the source. -/
inductive StimulusType
  | pure
  | warble
  | pulsed
deriving DecidableEq, Repr

/-- Presentation mode, `'manual' | 'automatic'` in the source. -/
inductive PresentationMode
  | manual
  | automatic
deriving DecidableEq, Repr

/-- Background-noise type, `'none' | 'construction' | 'mall' | 'supermarket'
| 'park'` in the source (`BackgroundNoiseSettings['type']`). -/
inductive NoiseType
  | none
  | construction
  | mall
  | supermarket
  | park
deriving DecidableEq, Repr

/-- `AudiometerSettings` from the source (lines 3-10). -/
structure AudiometerSettings where
  frequency : ℚ
  intensity : ℚ
  laterality : Laterality
  stimulusType : StimulusType
  presentationMode : PresentationMode
  automaticDuration : ℚ
deriving DecidableEq, Repr

/-- The 10 ms fade window, `FADE_TIME = 0.01` (line 17). -/
def FADE_TIME : ℚ := 1 / 100

/-- Pan value written into the stereo panner (lines 361-367): binaural 0,
left -1, right 1. -/
def panValueOf (l : Laterality) : ℤ :=
  match l with
  | Laterality.left => -1
  | Laterality.right => 1
  | Laterality.binaural => 0

/-- One built oscillator → gain → panner chain.  `id` distinguishes the node
objects of different `startTone` calls; the other fields are the values the
source writes into the nodes (lines 350-367). -/
structure ToneChain where
  id : ℕ
  frequency : ℚ
  intensity : ℚ
  pan : ℤ
  stimulus : StimulusType
deriving DecidableEq, Repr

/-- A built background-noise chain: loop-buffer source → gain → destination
(lines 240-254). -/
structure NoiseChain where
  noiseType : NoiseType
  volume : ℚ
deriving DecidableEq, Repr

/-- The state held by `useAudiometer` — its `useState`/`useRef` cells plus
the set of tone chains currently connected to the output sink. -/
structure EngineState where
  /-- `isReady` state (line 45): set after the context resume resolves. -/
  isReady : Bool
  /-- whether `audioContextRef.current` is non-null (line 37). -/
  hasContext : Bool
  /-- `isPlaying` state (line 44). -/
  isPlaying : Bool
  /-- the chain referenced by `oscillatorRef`/`gainNodeRef`/`pannerNodeRef`
  (lines 38-40), bundled. -/
  currentTone : Option ToneChain
  /-- `warbleLfoRef` non-null (line 41). -/
  warbleLfo : Bool
  /-- `pulsedLfoRef` non-null (line 42). -/
  pulsedLfo : Bool
  /-- every oscillator-gain-panner chain currently connected to the
  destination and running. -/
  aliveChains : List ToneChain
  /-- fresh id supply for newly created node chains. -/
  nextId : ℕ
  /-- the chain referenced by `backgroundNoiseSourceRef`/`backgroundNoiseGainRef`
  (lines 49-50). -/
  noiseChain : Option NoiseChain
  /-- `isBackgroundNoiseActive` state (line 51). -/
  noiseActive : Bool
  /-- keys of `loadedNoiseBuffers` (line 48). -/
  noiseBuffers : List NoiseType
  /-- `mediaStreamRef` non-null (line 54). -/
  micStream : Bool
  /-- `microphoneSourceRef`/`microphoneGainRef` (lines 55-56): the gain
  volume written into the chain, when present. -/
  micChain : Option ℚ
  /-- `isMicrophoneActive` state (line 57). -/
  micActive : Bool
  /-- `microphonePermissionGranted` state (line 61). -/
  micPermission : Bool
  /-- `selectedMicrophoneId` state (line 60). -/
  selectedMic : Option ℕ
deriving DecidableEq, Repr

/-- `stopTone` (lines 308-330): if an oscillator is referenced, ramp its gain
to zero, stop and disconnect it (removing that chain from the audible set),
null all tone refs including the LFOs, and clear `isPlaying`; otherwise do
nothing at all. -/
def stopTone (s : EngineState) : EngineState :=
  match s.currentTone with
  | Option.none => s
  | Option.some c =>
    { s with
      currentTone := Option.none,
      aliveChains := s.aliveChains.filter (fun x => x.id != c.id),
      warbleLfo := false,
      pulsedLfo := false,
      isPlaying := false }

/-- The tone chain `startTone` builds (lines 350-367): oscillator at the
given frequency, gain ramped to `dbToGain intensity`, panner from the
laterality.  No clamping or validation is applied to any field. -/
def buildToneChain (s : EngineState) (a : AudiometerSettings) : ToneChain :=
  { id := s.nextId,
    frequency := a.frequency,
    intensity := a.intensity,
    pan := panValueOf a.laterality,
    stimulus := a.stimulusType }

/-- `startTone` (lines 332-424).  Guard order follows the source: return if
not ready or already playing (line 333), return if the context ref is null
(lines 337-340), otherwise call `stopTone` (line 348), build and connect the
new chain, set the refs and `isPlaying`, and create the warble/pulsed LFO
when requested.  The automatic-mode `setTimeout` (lines 419-423) schedules a
later `stopTone` and does not change the state of this call. -/
def startTone (s : EngineState) (a : AudiometerSettings) : EngineState :=
  if s.isReady = false ∨ s.isPlaying = true then s
  else if s.hasContext = false then s
  else
    let s1 := stopTone s
    let c := buildToneChain s1 a
    { s1 with
      currentTone := Option.some c,
      aliveChains := c :: s1.aliveChains,
      nextId := s1.nextId + 1,
      isPlaying := true,
      warbleLfo := a.stimulusType == StimulusType.warble,
      pulsedLfo := a.stimulusType == StimulusType.pulsed }

/-- `stopBackgroundNoise` (lines 201-216): stop and disconnect the source and
gain when present, null the refs, and unconditionally clear
`isBackgroundNoiseActive`. -/
def stopBackgroundNoise (s : EngineState) : EngineState :=
  { s with noiseChain := Option.none, noiseActive := false }

/-- `loadAudio` (lines 173-198): return the cached buffer if the key is
cached; fail if the context ref is null; otherwise fetch and decode (the
oracle `fetchOk`), caching on success and returning null on failure. -/
def loadAudio (s : EngineState) (key : NoiseType) (fetchOk : Bool) :
    EngineState × Bool :=
  if key ∈ s.noiseBuffers then (s, true)
  else if s.hasContext = false then (s, false)
  else if fetchOk then ({ s with noiseBuffers := key :: s.noiseBuffers }, true)
  else (s, false)

/-- `startBackgroundNoise` (lines 219-260): with noise type `'none'` or a
null context ref it just calls `stopBackgroundNoise`; otherwise it first
stops any existing noise (line 228), then awaits `loadAudio`; on a buffer it
builds the loop-source → gain → destination chain and sets the active flag,
and on a null buffer it only logs, leaving the (already stopped) state. -/
def startBackgroundNoise (s : EngineState) (nt : NoiseType) (volume : ℚ)
    (fetchOk : Bool) : EngineState :=
  if nt = NoiseType.none ∨ s.hasContext = false then stopBackgroundNoise s
  else
    let s1 := stopBackgroundNoise s
    let p := loadAudio s1 nt fetchOk
    if p.2 then
      { p.1 with noiseChain := Option.some ⟨nt, volume⟩, noiseActive := true }
    else p.1

/-- `stopMicrophone` (lines 89-104): stop every capture track and drop the
stream, disconnect and null the source and gain nodes, clear
`isMicrophoneActive`. -/
def stopMicrophone (s : EngineState) : EngineState :=
  { s with micStream := false, micChain := Option.none, micActive := false }

/-- `startMicrophone` (lines 263-298): return if not ready, already active,
null context, permission not granted, or no device selected; otherwise
acquire the capture stream (oracle `streamOk`); on success wire
capture-source → gain → destination and set the active flag, on failure set
the active flag to false. -/
def startMicrophone (s : EngineState) (volume : ℚ) (streamOk : Bool) :
    EngineState :=
  if s.isReady = false ∨ s.micActive = true ∨ s.hasContext = false ∨
      s.micPermission = false ∨ s.selectedMic = Option.none then s
  else if streamOk then
    { s with micStream := true, micChain := Option.some volume, micActive := true }
  else
    { s with micActive := false }

/-- Well-formedness of the engine state: the chains connected to the sink are
exactly the chain referenced by the oscillator/gain/panner refs.  This holds
in the initial state and is preserved by every operation. -/
def WF (s : EngineState) : Prop :=
  s.aliveChains = s.currentTone.toList

/-- The state before any user gesture: no context, nothing running. -/
def initialState : EngineState :=
  { isReady := false
    hasContext := false
    isPlaying := false
    currentTone := Option.none
    warbleLfo := false
    pulsedLfo := false
    aliveChains := []
    nextId := 0
    noiseChain := Option.none
    noiseActive := false
    noiseBuffers := []
    micStream := false
    micChain := Option.none
    micActive := false
    micPermission := false
    selectedMic := Option.none }

/-- A ready, idle state: context acquired and resumed, nothing playing. -/
def readyIdleState : EngineState :=
  { initialState with isReady := true, hasContext := true }

/-- `dbToGain` (lines 25-27): `Math.pow(10, (db - 50) / 20)`. -/
noncomputable def dbToGain (db : ℝ) : ℝ :=
  (10 : ℝ) ^ ((db - 50) / 20)

/-- The target gain `startTone` writes into the envelope gain node
(line 357: `const targetGain = dbToGain(intensity)`). -/
noncomputable def toneTargetGain (a : AudiometerSettings) : ℝ :=
  dbToGain (a.intensity : ℝ)

/-- The gain `startBackgroundNoise` writes into its gain node
(line 245: `const calculatedGain = dbToGain(volume)`). -/
noncomputable def noiseGainValue (volume : ℚ) : ℝ :=
  dbToGain (volume : ℝ)

/-- The gain `startMicrophone` writes into its gain node
(line 284: `gainNode.gain.setValueAtTime(dbToGain(volume), ...)`). -/
noncomputable def micGainValue (volume : ℚ) : ℝ :=
  dbToGain (volume : ℝ)

/-- Output of a Web Audio `GainNode`: its input scaled by its `gain` value. -/
def gainNodeOutput (g input : ℚ) : ℚ := g * input

/-- `pulsePeriod = 0.4` (line 394). -/
def pulsePeriod : ℚ := 2 / 5

/-- Output of a square `OscillatorNode` of frequency `freq` at time `t`
(amplitude 1, first half-period high): used for the pulsed LFO created at
lines 395-397 with frequency `1 / pulsePeriod = 2.5` Hz. -/
def squareWaveValue (freq t : ℚ) : ℚ :=
  if Int.fract (freq * t) < 1 / 2 then 1 else -1

/-- Input feeding the `offsetGain` node of the pulsed branch.  In the source
(lines 408-412) `offsetGain` is created and connected to `gainNode.gain`,
but no node is ever connected INTO it, so its input signal is silence. -/
def offsetGainSourceInput : ℚ := 0

/-- Computed value of the envelope gain parameter in the pulsed branch, for
times after the 10 ms fade-in, with `target` the value of
`dbToGain(intensity)`.  Per Web Audio semantics the parameter's computed
value is its intrinsic (automation) value — ramped to `target` by line 359 —
plus the sum of the outputs of the nodes connected to it: `gainModulator`
(gain `target / 2`, fed by the 2.5 Hz square LFO, lines 404-406) and
`offsetGain` (gain `target / 2`, fed by nothing, lines 408-412), both
connected at lines 411-412.  The `pulseGain` node of lines 399-400 is
created but never connected and contributes nothing. -/
def pulsedEnvelopeGain (target t : ℚ) : ℚ :=
  target
    + gainNodeOutput (target / 2) (squareWaveValue (1 / pulsePeriod) t)
    + gainNodeOutput (target / 2) offsetGainSourceInput

/-- `fixedFrequencies` of the audiometer page (derived from the keys of
`initialThresholds`, part_000 lines 38-50 and 99). -/
def fixedFrequencies : List ℕ :=
  [125, 250, 500, 750, 1000, 1500, 2000, 3000, 4000, 6000, 8000]

/-- One row entry of the threshold table: right and left ear thresholds. -/
structure ThresholdEntry where
  right : Option ℚ
  left : Option ℚ
deriving DecidableEq, Repr

/-- The threshold table, keyed by frequency (part_000 lines 31-36). -/
def Thresholds : Type := ℕ → ThresholdEntry

/-- Which ear a single update targets. -/
inductive Ear
  | right
  | left
deriving DecidableEq, Repr

/-- `handleThresholdChange` (part_000 lines 65-73): functional update of one
ear's entry at one frequency, all other entries unchanged. -/
def handleThresholdChange (th : Thresholds) (frequency : ℕ) (ear : Ear)
    (value : Option ℚ) : Thresholds :=
  fun f =>
    if f = frequency then
      match ear with
      | Ear.right => { th frequency with right := value }
      | Ear.left => { th frequency with left := value }
    else th f

/-- `handleSaveResult` (part_000 lines 75-88): reject (error toast, table
unchanged) unless the frequency is fixed; otherwise update the right entry
for right/binaural laterality and the left entry for left/binaural, then
report success.  The boolean result records acceptance. -/
def handleSaveResult (th : Thresholds) (frequency : ℕ) (intensity : ℚ)
    (laterality : Laterality) : Thresholds × Bool :=
  if frequency ∈ fixedFrequencies then
    let th1 :=
      if laterality = Laterality.right ∨ laterality = Laterality.binaural then
        handleThresholdChange th frequency Ear.right (Option.some intensity)
      else th
    let th2 :=
      if laterality = Laterality.left ∨ laterality = Laterality.binaural then
        handleThresholdChange th1 frequency Ear.left (Option.some intensity)
      else th1
    (th2, true)
  else (th, false)

/-- `initialThresholds` (part_000 lines 38-50): every entry empty. -/
def initialThresholds : Thresholds :=
  fun _ => { right := Option.none, left := Option.none }

/-- Member names of the record returned by `useAudiometer`
(lines 452-471 of the source), the hook's entire exposed interface. -/
def useAudiometerReturnFields : List String :=
  ["startTone", "stopTone", "isPlaying", "isReady",
   "startMicrophone", "stopMicrophone", "isMicrophoneActive",
   "microphoneVolume", "setMicrophoneVolume", "microphoneDevices",
   "selectedMicrophoneId", "setSelectedMicrophoneId",
   "microphonePermissionGranted", "requestMicrophonePermission",
   "isBackgroundNoiseActive", "startBackgroundNoise", "stopBackgroundNoise"]

/-- Name of the mute toggle the specification describes. -/
def toggleMuteName : String := "toggleMicrophoneMute"

/-- Name of the muted status flag the specification describes. -/
def mutedFlagName : String := "isMicrophoneMuted"

/-- Example settings: the spec's scenario
`{frequency: 1000, intensity: 50, laterality: right, pure, manual}`. -/
def demoSettings : AudiometerSettings :=
  { frequency := 1000
    intensity := 50
    laterality := Laterality.binaural
    stimulusType := StimulusType.pure
    presentationMode := PresentationMode.manual
    automaticDuration := 2 }

/-- Settings differing from `demoSettings` in frequency only. -/
def replacementSettings : AudiometerSettings :=
  { demoSettings with frequency := 2000 }

/-- Settings whose frequency 50000 is far outside `[100, 10000]`. -/
def outOfRangeSettings : AudiometerSettings :=
  { demoSettings with frequency := 50000 }

/-- The chain built by starting `demoSettings` from `readyIdleState`. -/
def demoChain : ToneChain :=
  { id := 0, frequency := 1000, intensity := 50, pan := 0,
    stimulus := StimulusType.pure }

/-- A well-formed state in which `demoChain` is currently playing. -/
def playingState : EngineState :=
  { readyIdleState with
    isPlaying := true
    currentTone := Option.some demoChain
    aliveChains := [demoChain]
    nextId := 1 }

/-- A state with mall noise playing and its buffer cached. -/
def noisePlayingState : EngineState :=
  { readyIdleState with
    noiseChain := Option.some { noiseType := NoiseType.mall, volume := 50 }
    noiseActive := true
    noiseBuffers := [NoiseType.mall] }

/-- A state whose context exists (and has the mall buffer cached) but whose
`ready` flag is still false — reachable between context creation (line 67)
and the resolution of `resume()` that sets `isReady` (lines 68-69). -/
def notReadyNoiseState : EngineState :=
  { initialState with hasContext := true, noiseBuffers := [NoiseType.mall] }

/-! ## Helper lemmas -/

lemma stopTone_aliveChains_of_WF (s : EngineState) (h : WF s) :
    (stopTone s).aliveChains = [] := by
  unfold WF at h
  unfold stopTone
  cases hc : s.currentTone with
  | none =>
    rw [hc] at h
    simpa using h
  | some c =>
    rw [hc] at h
    simp [h]

lemma startTone_WF (s : EngineState) (a : AudiometerSettings) (h : WF s) :
    WF (startTone s a) := by
  unfold startTone
  split
  · exact h
  · split
    · exact h
    · unfold WF
      simp [stopTone_aliveChains_of_WF s h]

lemma WF_length_le_one (s : EngineState) (h : WF s) :
    s.aliveChains.length ≤ 1 := by
  unfold WF at h
  rw [h]
  cases s.currentTone <;> simp

/-! ## Claim theorems -/

/-- C1: from any well-formed engine state, calling `startTone` twice in a row
never leaves two simultaneously alive tone node-graphs: after the second
call, at most one oscillator-gain-panner chain is connected to the output
sink. -/
theorem startTone_twice_at_most_one_chain (s : EngineState)
    (a b : AudiometerSettings) (h : WF s) :
    ((startTone (startTone s a) b).aliveChains).length ≤ 1 :=
  WF_length_le_one _ (startTone_WF _ b (startTone_WF _ a h))

theorem startTone_twice_at_most_one_chain_witness :
    WF readyIdleState ∧
    ((startTone (startTone readyIdleState demoSettings) demoSettings).aliveChains).length ≤ 1 :=
  ⟨rfl, startTone_twice_at_most_one_chain readyIdleState demoSettings demoSettings rfl⟩

/-- C2 counterexample: calling `startTone` while a tone is PLAYING does not
stop the active tone and build a replacement from the new settings — the
guard on line 333 returns immediately, leaving the old chain (frequency
1000, not the requested 2000) playing. -/
theorem startTone_while_playing_is_ignored_cex :
    startTone playingState replacementSettings = playingState ∧
    (startTone playingState replacementSettings).currentTone = Option.some demoChain ∧
    replacementSettings.frequency ≠ demoChain.frequency := by
  refine ⟨?_, ?_, ?_⟩ <;> decide

/-- C2 amended: if `startTone` is called while `isPlaying` is true, the call
is ignored entirely (no stop sequence, no replacement, no state change); the
`stopTone` at the top of `startTone` runs only when the playing flag is
false. -/
theorem startTone_noop_when_playing (s : EngineState) (a : AudiometerSettings)
    (h : s.isPlaying = true) : startTone s a = s := by
  unfold startTone
  simp [h]

theorem startTone_noop_when_playing_witness :
    startTone playingState replacementSettings = playingState :=
  startTone_noop_when_playing playingState replacementSettings rfl

/-- C6: `stopTone` on an already-idle controller (no oscillator referenced)
is a no-op that changes no state, and `stopTone` is idempotent, so a stale
automatic-mode timer fire after a manual stop is absorbed safely. -/
theorem stopTone_idle_noop_and_idempotent :
    (∀ s : EngineState, s.currentTone = Option.none → stopTone s = s) ∧
    (∀ s : EngineState, stopTone (stopTone s) = stopTone s) := by
  have hnoop : ∀ s : EngineState, s.currentTone = Option.none → stopTone s = s := by
    intro s h
    unfold stopTone
    rw [h]
  refine ⟨hnoop, fun s => ?_⟩
  apply hnoop
  unfold stopTone
  cases hc : s.currentTone <;> simp [hc]

theorem stopTone_idle_noop_and_idempotent_witness :
    stopTone initialState = initialState :=
  stopTone_idle_noop_and_idempotent.1 initialState rfl

/-- C3 counterexample: `startTone` performs no range validation: a call with
frequency 50000 — far outside [100, 10000] — is not rejected: the node
chain carrying frequency 50000 is built and connected, and `isPlaying`
becomes true. -/
theorem startTone_no_validation_cex :
    (10000 : ℚ) < outOfRangeSettings.frequency ∧
    (startTone readyIdleState outOfRangeSettings).isPlaying = true ∧
    (startTone readyIdleState outOfRangeSettings).currentTone =
      Option.some { id := 0, frequency := 50000, intensity := 50, pan := 0,
                    stimulus := StimulusType.pure } ∧
    ((startTone readyIdleState outOfRangeSettings).aliveChains).length = 1 := by
  refine ⟨?_, ?_, ?_, ?_⟩ <;> decide

/-- C3 amended: `startTone` validates no numeric parameter: whenever the
engine is ready, idle, and has a context, any settings — including
out-of-range frequency or intensity — are accepted verbatim: a chain
carrying exactly the given frequency and intensity is built and connected
and `isPlaying` is set. -/
theorem startTone_accepts_any_settings (s : EngineState)
    (a : AudiometerSettings) (h1 : s.isReady = true) (h2 : s.isPlaying = false)
    (h3 : s.hasContext = true) :
    (startTone s a).isPlaying = true ∧
    (startTone s a).currentTone = Option.some (buildToneChain (stopTone s) a) ∧
    (buildToneChain (stopTone s) a).frequency = a.frequency ∧
    (buildToneChain (stopTone s) a).intensity = a.intensity := by
  unfold startTone
  simp [h1, h2, h3, buildToneChain]

theorem startTone_accepts_any_settings_witness :
    (startTone readyIdleState outOfRangeSettings).isPlaying = true ∧
    (startTone readyIdleState outOfRangeSettings).currentTone =
      Option.some (buildToneChain (stopTone readyIdleState) outOfRangeSettings) ∧
    (buildToneChain (stopTone readyIdleState) outOfRangeSettings).frequency =
      outOfRangeSettings.frequency ∧
    (buildToneChain (stopTone readyIdleState) outOfRangeSettings).intensity =
      outOfRangeSettings.intensity :=
  startTone_accepts_any_settings readyIdleState outOfRangeSettings rfl rfl rfl

/-- C4 counterexample: with target gain 1 (intensity 50 dB HL), at time 0 the
pulsed envelope gain is 3/2 — strictly above the target — so the gain is
not modulated between 0 and the target: nothing feeds `offsetGain` (so that
branch contributes 0) and the modulator sums with the intrinsic value
already ramped to the target. -/
theorem pulsedEnvelopeGain_exceeds_target_cex :
    pulsedEnvelopeGain 1 0 = 3 / 2 ∧ ¬ pulsedEnvelopeGain 1 0 ≤ 1 := by
  have h1 : pulsedEnvelopeGain 1 0 = 3 / 2 := by
    norm_num [pulsedEnvelopeGain, gainNodeOutput, squareWaveValue,
      offsetGainSourceInput, pulsePeriod]
  refine ⟨h1, ?_⟩
  rw [h1]
  norm_num

/-- C4 amended: for every positive target gain and every time, the pulsed
envelope gain equals either `3 * target / 2` (square high) or `target / 2`
(square low) — a 2.5 Hz square modulation of depth `target / 2` about the
ramped value `target`, never reaching 0 — and the resulting gain value is
never negative. -/
theorem pulsedEnvelopeGain_values (target t : ℚ) (h : 0 < target) :
    (pulsedEnvelopeGain target t = 3 * target / 2 ∨
      pulsedEnvelopeGain target t = target / 2) ∧
    0 < pulsedEnvelopeGain target t := by
  unfold pulsedEnvelopeGain gainNodeOutput squareWaveValue offsetGainSourceInput
  split
  · exact ⟨Or.inl (by ring), by linarith⟩
  · exact ⟨Or.inr (by ring), by linarith⟩

theorem pulsedEnvelopeGain_values_witness :
    (pulsedEnvelopeGain 1 0 = 3 * 1 / 2 ∨ pulsedEnvelopeGain 1 0 = 1 / 2) ∧
    0 < pulsedEnvelopeGain 1 0 :=
  pulsedEnvelopeGain_values 1 0 (by norm_num)

/-- C5 counterexample: with mall noise playing, a call to start park noise
whose fetch fails does not leave the prior noise state unchanged: the prior
session was already stopped at the top of the call, so afterwards no noise
is active at all. -/
theorem noise_failure_stops_prior_cex :
    noisePlayingState.noiseActive = true ∧
    (startBackgroundNoise noisePlayingState NoiseType.park 40 false).noiseActive = false ∧
    (startBackgroundNoise noisePlayingState NoiseType.park 40 false).noiseChain = Option.none := by
  refine ⟨?_, ?_, ?_⟩ <;> decide

/-- C5 amended: when the asset for a non-'none', uncached noise type fails
to fetch or decode, the failure is reported for that call and no
partially-built graph remains connected — but a previously playing noise
session does not keep playing: `startBackgroundNoise` stops it before
loading, so the controller ends the failed call idle. -/
theorem noise_fetch_failure_leaves_idle (s : EngineState) (nt : NoiseType)
    (v : ℚ) (h1 : nt ≠ NoiseType.none) (h2 : s.hasContext = true)
    (h3 : nt ∉ s.noiseBuffers) :
    (startBackgroundNoise s nt v false).noiseChain = Option.none ∧
    (startBackgroundNoise s nt v false).noiseActive = false := by
  unfold startBackgroundNoise loadAudio stopBackgroundNoise
  simp [h1, h2, h3]

theorem noise_fetch_failure_leaves_idle_witness :
    (startBackgroundNoise noisePlayingState NoiseType.park 40 false).noiseChain = Option.none ∧
    (startBackgroundNoise noisePlayingState NoiseType.park 40 false).noiseActive = false :=
  noise_fetch_failure_leaves_idle noisePlayingState NoiseType.park 40
    (by decide) rfl (by decide)

/-- C7: the intensity-to-gain function satisfies
`gain(db) = 10 ^ ((db - 50) / 20)` for every db, maps 50 dB HL to exactly
unity gain, is strictly increasing, and the identical function is applied by
all three session types: tone (line 357), background noise (line 245), and
microphone (lines 284 and 303). -/
theorem dbToGain_formula_unity_mono_shared :
    (∀ db : ℝ, dbToGain db = (10 : ℝ) ^ ((db - 50) / 20)) ∧
    dbToGain 50 = 1 ∧
    (∀ a b : ℝ, a < b → dbToGain a < dbToGain b) ∧
    (∀ a : AudiometerSettings, toneTargetGain a = dbToGain (a.intensity : ℝ)) ∧
    (∀ v : ℚ, noiseGainValue v = dbToGain (v : ℝ) ∧ micGainValue v = dbToGain (v : ℝ)) := by
  refine ⟨fun _ => rfl, ?_, ?_, fun _ => rfl, fun _ => ⟨rfl, rfl⟩⟩
  · unfold dbToGain
    have h0 : ((50 : ℝ) - 50) / 20 = 0 := by norm_num
    rw [h0, Real.rpow_zero]
  · intro a b hab
    unfold dbToGain
    apply (Real.rpow_lt_rpow_left_iff (by norm_num : (1 : ℝ) < 10)).mpr
    linarith

theorem dbToGain_formula_unity_mono_shared_witness :
    dbToGain 40 < dbToGain 50 :=
  dbToGain_formula_unity_mono_shared.2.2.1 40 50 (by norm_num)

/-- C8: saving a threshold is accepted only for the fixed frequency set
{125, 250, 500, 750, 1000, 1500, 2000, 3000, 4000, 6000, 8000} — any other
frequency is rejected with a user-facing error and leaves the table
unchanged — and an accepted binaural save updates both the right and left
entries of that frequency to the given intensity, while a right (resp. left)
save updates only the right (resp. left) entry. -/
theorem handleSaveResult_fixed_and_laterality :
    (∀ (th : Thresholds) (f : ℕ) (i : ℚ) (l : Laterality),
        f ∉ fixedFrequencies → handleSaveResult th f i l = (th, false)) ∧
    (∀ (th : Thresholds) (f : ℕ) (i : ℚ), f ∈ fixedFrequencies →
        ((handleSaveResult th f i Laterality.binaural).1 f).right = Option.some i ∧
        ((handleSaveResult th f i Laterality.binaural).1 f).left = Option.some i) ∧
    (∀ (th : Thresholds) (f : ℕ) (i : ℚ), f ∈ fixedFrequencies →
        ((handleSaveResult th f i Laterality.right).1 f).right = Option.some i ∧
        ((handleSaveResult th f i Laterality.right).1 f).left = (th f).left) ∧
    (∀ (th : Thresholds) (f : ℕ) (i : ℚ), f ∈ fixedFrequencies →
        ((handleSaveResult th f i Laterality.left).1 f).left = Option.some i ∧
        ((handleSaveResult th f i Laterality.left).1 f).right = (th f).right) := by
  refine ⟨?_, ?_, ?_, ?_⟩ <;> intro th f i
  case _ =>
    intro l hf
    unfold handleSaveResult
    simp [hf]
  all_goals
    intro hf
    unfold handleSaveResult handleThresholdChange
    simp [hf]

theorem handleSaveResult_fixed_and_laterality_witness :
    handleSaveResult initialThresholds 137 30 Laterality.right = (initialThresholds, false) ∧
    ((handleSaveResult initialThresholds 1000 30 Laterality.binaural).1 1000).right = Option.some 30 ∧
    ((handleSaveResult initialThresholds 1000 30 Laterality.binaural).1 1000).left = Option.some 30 :=
  ⟨handleSaveResult_fixed_and_laterality.1 initialThresholds 137 30 Laterality.right (by decide),
   (handleSaveResult_fixed_and_laterality.2.1 initialThresholds 1000 30 (by decide)).1,
   (handleSaveResult_fixed_and_laterality.2.1 initialThresholds 1000 30 (by decide)).2⟩

/-- C9 counterexample: with the `ready` flag false but the context object
already created (and the mall buffer cached), `startBackgroundNoise` is not
a no-op: it builds a noise graph and sets the active flag, because it checks
only the context reference and never the `ready` flag. -/
theorem startBackgroundNoise_ignores_ready_cex :
    notReadyNoiseState.isReady = false ∧
    (startBackgroundNoise notReadyNoiseState NoiseType.mall 50 true).noiseActive = true ∧
    (startBackgroundNoise notReadyNoiseState NoiseType.mall 50 true).noiseChain =
      Option.some { noiseType := NoiseType.mall, volume := 50 } := by
  refine ⟨?_, ?_, ?_⟩ <;> decide

/-- C9 amended: when the `ready` flag is false, `startTone` and
`startMicrophone` are no-ops performing no graph mutation and no state
change; `startBackgroundNoise`, however, checks only whether the context
object exists, not the `ready` flag, so it is not a no-op in every
not-ready state. -/
theorem not_ready_tone_and_mic_noop (s : EngineState)
    (a : AudiometerSettings) (v : ℚ) (ok : Bool) (h : s.isReady = false) :
    startTone s a = s ∧ startMicrophone s v ok = s := by
  unfold startTone startMicrophone
  simp [h]

theorem not_ready_tone_and_mic_noop_witness :
    startTone initialState demoSettings = initialState ∧
    startMicrophone initialState 50 true = initialState :=
  not_ready_tone_and_mic_noop initialState demoSettings 50 true rfl

/-- C10 counterexample: the record returned by `useAudiometer` contains
neither a `toggleMicrophoneMute` operation nor an `isMicrophoneMuted`
status — the microphone monitor offers no mute/unmute toggle at all. -/
theorem no_mic_mute_api_cex :
    useAudiometerReturnFields.contains toggleMuteName = false ∧
    useAudiometerReturnFields.contains mutedFlagName = false := by
  refine ⟨?_, ?_⟩ <;> decide

/-- C10 amended: the hook exposes no microphone mute/unmute toggle and no
muted status flag (volume changes instead mutate the existing gain node),
and `stopMicrophone` releases the hardware stream by stopping every capture
track, disconnects and clears the source and gain nodes, and clears the
active flag. -/
theorem stopMicrophone_releases_and_no_mute_api :
    (∀ s : EngineState,
        (stopMicrophone s).micStream = false ∧
        (stopMicrophone s).micChain = Option.none ∧
        (stopMicrophone s).micActive = false) ∧
    useAudiometerReturnFields.contains toggleMuteName = false ∧
    useAudiometerReturnFields.contains mutedFlagName = false := by
  refine ⟨fun s => ⟨rfl, rfl, rfl⟩, ?_, ?_⟩ <;> decide
